import Mathlib

/-!
Verification of the whatsapp-diet message-handling core.

The Python services are shallowly embedded: JSON payloads from the
language-model API become the inductive `JVal`, Python floats become
exact rationals (`Rat`), raising an exception becomes `Except.error`,
and the SQLAlchemy session becomes an explicit `DBSession` record with
`add` / `commit` / `rollback` state transitions.
-/

set_option maxHeartbeats 1000000

/-- A JSON value as produced by Python's `json.loads`: objects become
dicts (modelled as association lists with distinct keys), arrays become
lists, numbers become `Rat`, and `true`/`false` become Python booleans.
Booleans are kept distinct from numbers because several checks in the
source use `isinstance(x, (int, float))`, which is true for Python
booleans (`bool` is a subclass of `int`). -/
inductive JVal where
  | null
  | bool (b : Bool)
  | num (q : Rat)
  | str (s : String)
  | arr (xs : List JVal)
  | obj (fields : List (String × JVal))

instance : Inhabited JVal := ⟨JVal.null⟩

/-- First-match lookup in an object's field list (keys are distinct, as in
a Python dict after `json.loads`). -/
def JVal.lookupField (k : String) : List (String × JVal) → Option JVal
  | [] => none
  | (k₁, v) :: rest => if k₁ = k then some v else lookupField k rest

/-- Lookup `j[k]` / membership `k in j` on a Python dict: `some` when `j` is an object
carrying the key.  On a non-object this returns `none`; in Python the
corresponding membership test or indexing either reports the key as
missing or raises `TypeError`, and in every code path embedded here both
outcomes end in the same raised-error result. -/
def JVal.get? (j : JVal) (k : String) : Option JVal :=
  match j with
  | .obj fields => lookupField k fields
  | _ => none

/-- Python `dict.get(k)`: the value, or `None` when absent. -/
def JVal.getD (j : JVal) (k : String) : JVal :=
  (j.get? k).getD .null

/-- Python `isinstance(x, (int, float))`, applied to a value parsed by
`json.loads`: JSON numbers and JSON booleans both satisfy it, because
`json.loads` maps `true`/`false` to Python `True`/`False` and `bool` is a
subclass of `int`. -/
def JVal.isPyNumber : JVal → Bool
  | .num _ => true
  | .bool _ => true
  | _ => false

/-- Numeric value of a Python number in arithmetic and comparisons:
`True == 1`, `False == 0`. -/
def JVal.pyNum : JVal → Rat
  | .num q => q
  | .bool b => if b then 1 else 0
  | _ => 0

/-- Python truthiness of a JSON-derived value, as used by `x or y`. -/
def JVal.pyTruthy : JVal → Bool
  | .null => false
  | .bool b => b
  | .num q => decide (q ≠ 0)
  | .str s => decide (s ≠ "")
  | .arr xs => !xs.isEmpty
  | .obj fields => !fields.isEmpty

/-- ASCII lowering of one character, as `str.lower` acts on ASCII text
(the messages and keywords in this system are ASCII). -/
def pyLowerChar (c : Char) : Char :=
  if 'A' ≤ c ∧ c ≤ 'Z' then Char.ofNat (c.toNat + 32) else c

/-- Python `str.lower()` restricted to ASCII. -/
def pyLower (s : String) : String :=
  String.mk (s.data.map pyLowerChar)

/-- ASCII whitespace, the characters `str.strip()` removes from ASCII text. -/
def pyIsSpace (c : Char) : Bool :=
  c = ' ' || c = '\t' || c = '\n' || c = '\r' || c = '\x0b' || c = '\x0c'

/-- Python `str.strip()`: drop leading and trailing whitespace. -/
def pyStrip (s : String) : String :=
  String.mk (((s.data.dropWhile pyIsSpace).reverse.dropWhile pyIsSpace).reverse)

/-- Substring containment on character lists: `needle` occurs contiguously
somewhere in `hay`. -/
def charsInfixOf (needle : List Char) : List Char → Bool
  | [] => needle.isEmpty
  | c :: rest => needle.isPrefixOf (c :: rest) || charsInfixOf needle rest

/-- Python `needle in hay` on strings: substring containment. -/
def strContains (hay needle : String) : Bool :=
  charsInfixOf needle.data hay.data

/-- Python `hay.startswith (pre)` on strings: raw character-sequence prefix. -/
def strStartsWith (hay pre : String) : Bool :=
  pre.data.isPrefixOf hay.data

/-- The `MessageClassificationService.QUESTION_KEYWORDS` list. -/
def QUESTION_KEYWORDS : List String :=
  ["how", "what", "why", "when", "where", "can", "could",
   "would", "should", "do", "does", "did", "is", "are",
   "was", "were", "will", "have", "has", "had"]

/-- The `MessageClassificationService.QUESTION_INDICATORS` list. -/
def QUESTION_INDICATORS : List String :=
  ["recommend", "suggest", "advice", "help", "tell me"]

/-- Embeds `MessageClassificationService.is_question`: question mark anywhere in
the raw message, else an interrogative keyword as a raw prefix of the
lower-cased stripped message, else an advice-seeking substring anywhere in
the lower-cased stripped message. -/
def is_question (message : String) : Bool :=
  let message_lower := pyStrip (pyLower message)
  if strContains message "?" then true
  else if QUESTION_KEYWORDS.any (strStartsWith message_lower) then true
  else if QUESTION_INDICATORS.any (strContains message_lower) then true
  else false

/-- Embeds `MessageClassificationService.classify_message`. -/
def classify_message (message : String) : String :=
  if is_question message then "question" else "food_entry"

/-- C4: for every input text, `classify_message` returns exactly one of
"question" or "food_entry"; it returns "question" precisely when the raw
text contains a literal question mark, or the lower-cased stripped text
starts (as a raw character sequence) with one of the fixed interrogative
keywords, or it contains one of the fixed advice-seeking substrings; in
particular the empty string classifies as "food_entry" (the function is
total, so no error is possible). -/
theorem classify_message_binary_first_match (s : String) :
    (classify_message s = "question" ∨ classify_message s = "food_entry")
    ∧ (classify_message s = "question" ↔
        (strContains s "?" = true
          ∨ QUESTION_KEYWORDS.any (strStartsWith (pyStrip (pyLower s))) = true
          ∨ QUESTION_INDICATORS.any (strContains (pyStrip (pyLower s))) = true))
    ∧ classify_message "" = "food_entry" := by
  refine ⟨?_, ?_, by decide⟩
  · by_cases h : is_question s
    · exact Or.inl (by simp [classify_message, h])
    · exact Or.inr (by simp [classify_message, h])
  · constructor
    · intro h
      by_cases hq : is_question s
      · simp only [is_question] at hq
        by_cases h1 : strContains s "?" = true
        · exact Or.inl h1
        · by_cases h2 : QUESTION_KEYWORDS.any (strStartsWith (pyStrip (pyLower s))) = true
          · exact Or.inr (Or.inl h2)
          · by_cases h3 : QUESTION_INDICATORS.any (strContains (pyStrip (pyLower s))) = true
            · exact Or.inr (Or.inr h3)
            · simp [h1, h2, h3] at hq
      · simp [classify_message, hq] at h
    · intro h
      have hq : is_question s = true := by
        simp only [is_question]
        rcases h with h | h | h <;> simp [h]
      simp [classify_message, hq]

/-- Witness for C4 at concrete inputs: a keyword-prefixed message is a
question, and the empty message is a food entry. -/
theorem classify_message_binary_first_match_witness :
    classify_message "How many calories" = "question"
    ∧ classify_message "" = "food_entry" := by
  constructor
  · exact (classify_message_binary_first_match "How many calories").2.1.mpr
      (Or.inr (Or.inl (by decide)))
  · exact (classify_message_binary_first_match "x").2.2

/-- C10: the interrogative keywords are tested as raw string prefixes of
the whole lower-cased stripped message, not as whole first words: any
message whose lower-cased stripped text merely begins with the character
sequence of a keyword classifies as "question". -/
theorem keyword_prefix_not_word_boundary (s w : String)
    (hw : w ∈ QUESTION_KEYWORDS)
    (hpre : strStartsWith (pyStrip (pyLower s)) w = true) :
    classify_message s = "question" := by
  have hq : is_question s = true := by
    simp only [is_question]
    have : QUESTION_KEYWORDS.any (strStartsWith (pyStrip (pyLower s))) = true :=
      List.any_eq_true.mpr ⟨w, hw, hpre⟩
    simp [this]
  simp [classify_message, hq]

/-- Witness for C10: the food descriptions "donuts with coffee" (prefix
"do") and "had a banana" (prefix "had") both classify as questions. -/
theorem keyword_prefix_not_word_boundary_witness :
    classify_message "donuts with coffee" = "question"
    ∧ classify_message "had a banana" = "question" := by
  constructor
  · exact keyword_prefix_not_word_boundary "donuts with coffee" "do"
      (by decide) (by decide)
  · exact keyword_prefix_not_word_boundary "had a banana" "had"
      (by decide) (by decide)

/-- The `nutrition_fields` list of `OpenAIService.analyze_food_entry`. -/
def nutrition_fields : List String := ["calories", "protein", "carbs", "fats"]

/-- The allowed meal types, as listed both in the final check of
`analyze_food_entry` and in `FoodAnalysis.validate_meal_type`. -/
def allowed_meal_types : List String :=
  ["breakfast", "lunch", "dinner", "snack", "drink"]

/-- The confidence check of `analyze_food_entry`:
`isinstance(x, (int, float)) and 0 <= x <= 1` (the source raises on the
negation of this conjunction). -/
def JVal.confidenceOk (cs : JVal) : Bool :=
  cs.isPyNumber && decide ((0 : Rat) ≤ cs.pyNum) && decide (cs.pyNum ≤ (1 : Rat))

/-- The inner `for field in nutrition_fields` loop over one item's
`nutrition` dict: each field must be present and numeric. -/
def checkItemNutrition (nut : JVal) : List String → Except String Unit
  | [] => .ok ()
  | f :: rest =>
    match nut.get? f with
    | none => .error ("Each item must have " ++ f ++ " in nutrition")
    | some v =>
      if v.isPyNumber then checkItemNutrition nut rest
      else .error ("Nutrition field " ++ f ++ " must be a number")

/-- Validation of one element of `analysis["items"]`, in source order:
presence of `normalized_title`, `nutrition`, `confidence_score`; then the
four nutrition fields; then the confidence bound. -/
def checkItem (item : JVal) : Except String Unit :=
  match item.get? "normalized_title" with
  | none => .error "Each item must have a normalized_title"
  | some _ =>
    match item.get? "nutrition" with
    | none => .error "Each item must have nutrition information"
    | some nut =>
      match item.get? "confidence_score" with
      | none => .error "Each item must have a confidence_score"
      | some cs =>
        match checkItemNutrition nut nutrition_fields with
        | .error e => .error e
        | .ok _ =>
          if cs.confidenceOk then .ok ()
          else .error "Confidence score must be a number between 0 and 1"

/-- The `for item in analysis["items"]` validation loop. -/
def checkItems : List JVal → Except String Unit
  | [] => .ok ()
  | item :: rest =>
    match checkItem item with
    | .error e => .error e
    | .ok _ => checkItems rest

/-- The `for field in nutrition_fields` loop over `total_nutrition`. -/
def checkTotalNutrition (tot : JVal) : List String → Except String Unit
  | [] => .ok ()
  | f :: rest =>
    match tot.get? f with
    | none => .error ("Missing " ++ f ++ " in total_nutrition")
    | some v =>
      if v.isPyNumber then checkTotalNutrition tot rest
      else .error ("Total nutrition field " ++ f ++ " must be a number")

/-- The final check `analysis["meal_type"] not in [...]` of
`analyze_food_entry`: an exact, case-sensitive string membership test. -/
def mealTypeAllowed : JVal → Bool
  | .str s => allowed_meal_types.contains s
  | _ => false

/-- Validation phase of `OpenAIService.analyze_food_entry`.  The argument
is the JSON value parsed from the external model response (`none` when
the response carried no choices or no content).  On success the parsed
analysis is returned unchanged; any violation raises, embedded as
`Except.error`.  A non-list `analysis["items"]` fails the
`isinstance(analysis["items"], list)` test and raises the same error as
an empty list. -/
def analyze_food_entry (response : Option JVal) : Except String JVal :=
  match response with
  | none => .error "No response content received from OpenAI"
  | some analysis =>
    match analysis.get? "meal_type" with
    | none => .error "Missing required field: meal_type"
    | some mt =>
      match analysis.get? "items" with
      | none => .error "Missing required field: items"
      | some itemsVal =>
        match analysis.get? "total_nutrition" with
        | none => .error "Missing required field: total_nutrition"
        | some totalNut =>
          match itemsVal with
          | .arr items =>
            if items.isEmpty then .error "Items must be a non-empty list"
            else
              match checkItems items with
              | .error e => .error e
              | .ok _ =>
                match checkTotalNutrition totalNut nutrition_fields with
                | .error e => .error e
                | .ok _ =>
                  if mealTypeAllowed mt then .ok analysis
                  else .error "Invalid meal type"
          | _ => .error "Items must be a non-empty list"

/-- Embeds `FoodAnalysis.validate_meal_type`, the pydantic validator declared in
openai_service.py: accepts the five meal types case-insensitively and
returns the lower-cased form.  It is declared in the source, but the
validation path of `analyze_food_entry` never invokes it. -/
def validate_meal_type (v : String) : Except String String :=
  if allowed_meal_types.contains (pyLower v) then .ok (pyLower v)
  else .error "meal_type must be one of the allowed types"

/-- Whether an `Except` computation succeeded. -/
def exceptOk {α : Type} : Except String α → Bool
  | .ok _ => true
  | .error _ => false

/-- One nutrition field of a dict is missing or non-numeric (in the
Python sense, where booleans count as numbers). -/
def nutFieldBad (nut : JVal) (f : String) : Bool :=
  match nut.get? f with
  | none => true
  | some v => !v.isPyNumber

/-- An item of the analysis is structurally invalid: missing
`normalized_title`, `nutrition`, or `confidence_score`; a nutrition field
missing or non-numeric; or a confidence score non-numeric or outside
[0, 1]. -/
def itemMalformed (item : JVal) : Bool :=
  (item.get? "normalized_title").isNone
  || (item.get? "nutrition").isNone
  || (item.get? "confidence_score").isNone
  || nutrition_fields.any (nutFieldBad (item.getD "nutrition"))
  || !(item.getD "confidence_score").confidenceOk

/-- Holds when `analysis["items"]` is not a non-empty list, or some item in it is
structurally invalid. -/
def itemsBad : JVal → Bool
  | .arr items => items.isEmpty || items.any itemMalformed
  | _ => true

/-- The full failure condition of the gateway: response absent, a
required top-level field missing, items not a non-empty list of
well-formed items, a total-nutrition field missing or non-numeric, or a
meal type that is not exactly one of the five lowercase names. -/
def responseMalformed : Option JVal → Bool
  | none => true
  | some analysis =>
    (analysis.get? "meal_type").isNone
    || (analysis.get? "items").isNone
    || (analysis.get? "total_nutrition").isNone
    || itemsBad (analysis.getD "items")
    || nutrition_fields.any (nutFieldBad (analysis.getD "total_nutrition"))
    || !mealTypeAllowed (analysis.getD "meal_type")

theorem exceptOk_checkItemNutrition (nut : JVal) (fs : List String) :
    exceptOk (checkItemNutrition nut fs) = !(fs.any (nutFieldBad nut)) := by
  induction fs with
  | nil => rfl
  | cons f rest ih =>
    cases h : nut.get? f with
    | none => simp [checkItemNutrition, nutFieldBad, h, exceptOk]
    | some v =>
      by_cases hv : v.isPyNumber = true
      · simp [checkItemNutrition, nutFieldBad, h, hv, ih]
      · simp only [Bool.not_eq_true] at hv
        simp [checkItemNutrition, nutFieldBad, h, hv, exceptOk]

theorem exceptOk_checkTotalNutrition (tot : JVal) (fs : List String) :
    exceptOk (checkTotalNutrition tot fs) = !(fs.any (nutFieldBad tot)) := by
  induction fs with
  | nil => rfl
  | cons f rest ih =>
    cases h : tot.get? f with
    | none => simp [checkTotalNutrition, nutFieldBad, h, exceptOk]
    | some v =>
      by_cases hv : v.isPyNumber = true
      · simp [checkTotalNutrition, nutFieldBad, h, hv, ih]
      · simp only [Bool.not_eq_true] at hv
        simp [checkTotalNutrition, nutFieldBad, h, hv, exceptOk]

theorem exceptOk_checkItem (item : JVal) :
    exceptOk (checkItem item) = !(itemMalformed item) := by
  cases h1 : item.get? "normalized_title" with
  | none => simp [checkItem, itemMalformed, h1, exceptOk]
  | some t =>
    cases h2 : item.get? "nutrition" with
    | none => simp [checkItem, itemMalformed, h1, h2, exceptOk]
    | some nut =>
      cases h3 : item.get? "confidence_score" with
      | none => simp [checkItem, itemMalformed, h1, h2, h3, exceptOk]
      | some cs =>
        have hgd : item.getD "nutrition" = nut := by simp [JVal.getD, h2]
        have hgc : item.getD "confidence_score" = cs := by simp [JVal.getD, h3]
        cases h4 : checkItemNutrition nut nutrition_fields with
        | error e =>
          have hn := exceptOk_checkItemNutrition nut nutrition_fields
          rw [h4] at hn
          simp only [exceptOk, Bool.false_eq, Bool.not_eq_false] at hn
          simp [checkItem, itemMalformed, h1, h2, h3, h4, hgd, hgc, exceptOk, hn]
        | ok u =>
          have hn := exceptOk_checkItemNutrition nut nutrition_fields
          rw [h4] at hn
          simp only [exceptOk, Bool.true_eq, Bool.not_eq_true'] at hn
          by_cases h5 : cs.confidenceOk = true
          · simp [checkItem, itemMalformed, h1, h2, h3, h4, hgd, hgc, h5, exceptOk, hn]
          · simp only [Bool.not_eq_true] at h5
            simp [checkItem, itemMalformed, h1, h2, h3, h4, hgd, hgc, h5, exceptOk, hn]

theorem exceptOk_checkItems (l : List JVal) :
    exceptOk (checkItems l) = !(l.any itemMalformed) := by
  induction l with
  | nil => rfl
  | cons item rest ih =>
    cases h : checkItem item with
    | error e =>
      have hi := exceptOk_checkItem item
      rw [h] at hi
      simp only [exceptOk, Bool.false_eq, Bool.not_eq_false] at hi
      simp [checkItems, h, exceptOk, hi]
    | ok u =>
      have hi := exceptOk_checkItem item
      rw [h] at hi
      simp only [exceptOk, Bool.true_eq, Bool.not_eq_true'] at hi
      simp [checkItems, h, ih, hi]

theorem eq_ok_of_exceptOk {e : Except String Unit} (h : exceptOk e = true) :
    e = Except.ok () := by
  cases e with
  | error msg => simp [exceptOk] at h
  | ok u => rfl

theorem exceptOk_analyze (r : Option JVal) :
    exceptOk (analyze_food_entry r) = !(responseMalformed r) := by
  cases r with
  | none => rfl
  | some analysis =>
    cases h1 : analysis.get? "meal_type" with
    | none => simp [analyze_food_entry, responseMalformed, h1, exceptOk]
    | some mt =>
      have hg1 : analysis.getD "meal_type" = mt := by simp [JVal.getD, h1]
      cases h2 : analysis.get? "items" with
      | none => simp [analyze_food_entry, responseMalformed, h1, h2, exceptOk]
      | some itemsVal =>
        have hg2 : analysis.getD "items" = itemsVal := by simp [JVal.getD, h2]
        cases h3 : analysis.get? "total_nutrition" with
        | none => simp [analyze_food_entry, responseMalformed, h1, h2, h3, exceptOk]
        | some tot =>
          have hg3 : analysis.getD "total_nutrition" = tot := by
            simp [JVal.getD, h3]
          cases itemsVal with
          | null =>
            simp [analyze_food_entry, responseMalformed, itemsBad,
              h1, h2, h3, hg1, hg2, hg3, exceptOk]
          | bool b =>
            simp [analyze_food_entry, responseMalformed, itemsBad,
              h1, h2, h3, hg1, hg2, hg3, exceptOk]
          | num q =>
            simp [analyze_food_entry, responseMalformed, itemsBad,
              h1, h2, h3, hg1, hg2, hg3, exceptOk]
          | str s =>
            simp [analyze_food_entry, responseMalformed, itemsBad,
              h1, h2, h3, hg1, hg2, hg3, exceptOk]
          | obj fields =>
            simp [analyze_food_entry, responseMalformed, itemsBad,
              h1, h2, h3, hg1, hg2, hg3, exceptOk]
          | arr items =>
            by_cases hemp : items.isEmpty = true
            · simp [analyze_food_entry, responseMalformed, itemsBad,
                h1, h2, h3, hg1, hg2, hg3, hemp, exceptOk]
            · simp only [Bool.not_eq_true] at hemp
              cases h4 : checkItems items with
              | error e =>
                have hi := exceptOk_checkItems items
                rw [h4] at hi
                simp only [exceptOk, Bool.false_eq, Bool.not_eq_false] at hi
                simp [analyze_food_entry, responseMalformed, itemsBad,
                  h1, h2, h3, hg1, hg2, hg3, hemp, h4, exceptOk, hi]
              | ok u =>
                have hi := exceptOk_checkItems items
                rw [h4] at hi
                simp only [exceptOk, Bool.true_eq, Bool.not_eq_true'] at hi
                cases h5 : checkTotalNutrition tot nutrition_fields with
                | error e =>
                  have htl := exceptOk_checkTotalNutrition tot nutrition_fields
                  rw [h5] at htl
                  simp only [exceptOk, Bool.false_eq, Bool.not_eq_false] at htl
                  simp [analyze_food_entry, responseMalformed, itemsBad,
                    h1, h2, h3, hg1, hg2, hg3, hemp, h4, h5, exceptOk, hi, htl]
                | ok v =>
                  have htl := exceptOk_checkTotalNutrition tot nutrition_fields
                  rw [h5] at htl
                  simp only [exceptOk, Bool.true_eq, Bool.not_eq_true'] at htl
                  by_cases h6 : mealTypeAllowed mt = true
                  · simp [analyze_food_entry, responseMalformed, itemsBad,
                      h1, h2, h3, hg1, hg2, hg3, hemp, h4, h5, h6, exceptOk, hi, htl]
                  · simp only [Bool.not_eq_true] at h6
                    simp [analyze_food_entry, responseMalformed, itemsBad,
                      h1, h2, h3, hg1, hg2, hg3, hemp, h4, h5, h6, exceptOk, hi, htl]

theorem analyze_ok_of_wellformed (r : Option JVal)
    (h : responseMalformed r = false) :
    analyze_food_entry r = Except.ok (r.getD JVal.null) := by
  cases r with
  | none => simp [responseMalformed] at h
  | some analysis =>
    simp only [responseMalformed, Bool.or_eq_false_iff] at h
    obtain ⟨⟨⟨⟨⟨hm, hi⟩, ht⟩, hib⟩, htn⟩, hmt⟩ := h
    cases h1 : analysis.get? "meal_type" with
    | none => rw [h1] at hm; simp at hm
    | some mt =>
      cases h2 : analysis.get? "items" with
      | none => rw [h2] at hi; simp at hi
      | some itemsVal =>
        cases h3 : analysis.get? "total_nutrition" with
        | none => rw [h3] at ht; simp at ht
        | some tot =>
          have hg2 : analysis.getD "items" = itemsVal := by simp [JVal.getD, h2]
          rw [hg2] at hib
          cases itemsVal with
          | null => simp [itemsBad] at hib
          | bool b => simp [itemsBad] at hib
          | num q => simp [itemsBad] at hib
          | str s => simp [itemsBad] at hib
          | obj fields => simp [itemsBad] at hib
          | arr items =>
            simp only [itemsBad, Bool.or_eq_false_iff] at hib
            obtain ⟨hemp, hall⟩ := hib
            have h4 : checkItems items = Except.ok () := by
              apply eq_ok_of_exceptOk
              rw [exceptOk_checkItems, hall]
              rfl
            have hg3 : analysis.getD "total_nutrition" = tot := by
              simp [JVal.getD, h3]
            rw [hg3] at htn
            have h5 : checkTotalNutrition tot nutrition_fields = Except.ok () := by
              apply eq_ok_of_exceptOk
              rw [exceptOk_checkTotalNutrition, htn]
              rfl
            have hg1 : analysis.getD "meal_type" = mt := by simp [JVal.getD, h1]
            rw [hg1] at hmt
            simp only [Bool.not_eq_false'] at hmt
            simp [analyze_food_entry, h1, h2, h3, hemp, h4, h5, hmt]

/-- The rational 0.9, built by its constructor so that concrete
validation runs reduce inside the kernel. -/
def nineTenths : Rat := ⟨9, 10, by norm_num, by norm_num⟩

/-- A well-formed single-item analysis response. -/
def validItem : JVal := .obj
  [("normalized_title", .str "Banana"),
   ("nutrition", .obj
     [("calories", .num 105), ("protein", .num 1),
      ("carbs", .num 27), ("fats", .num 0)]),
   ("confidence_score", .num nineTenths),
   ("notes", .str "Great choice")]

/-- A well-formed analysis response: one item, exact lowercase meal type. -/
def validResponse : JVal := .obj
  [("meal_type", .str "snack"),
   ("items", .arr [validItem]),
   ("total_nutrition", .obj
     [("calories", .num 105), ("protein", .num 1),
      ("carbs", .num 27), ("fats", .num 0)])]

/-- C1 (amended): `analyze_food_entry` fails precisely when the response
is absent/empty or structurally invalid — missing `meal_type`, `items`
or `total_nutrition`; `items` not a non-empty list; an item lacking
`normalized_title`, `nutrition` or `confidence_score`; a per-item or
total nutrition field missing or non-numeric; a confidence score
non-numeric or outside [0, 1]; or an unrecognized meal type — where, as
in the Python source, JSON booleans count as numeric (Python `bool` is a
subclass of `int`) and a meal type is recognized only by exact match
against the five lowercase names; otherwise it returns the parsed
analysis unchanged.  There is no partial acceptance: one malformed item
fails the whole batch. -/
theorem gateway_failure_characterization (r : Option JVal) :
    exceptOk (analyze_food_entry r) = !(responseMalformed r)
    ∧ (responseMalformed r = false →
        analyze_food_entry r = Except.ok (r.getD JVal.null)) :=
  ⟨exceptOk_analyze r, analyze_ok_of_wellformed r⟩

/-- Witness for C1 at concrete inputs: a well-formed response passes
validation and is returned unchanged, and an absent response fails. -/
theorem gateway_failure_characterization_witness :
    analyze_food_entry (some validResponse) = Except.ok validResponse
    ∧ exceptOk (analyze_food_entry none) = false := by
  constructor
  · exact (gateway_failure_characterization (some validResponse)).2 (by decide)
  · exact ((gateway_failure_characterization none).1).trans (by decide)

/-- A response whose only item carries the JSON boolean `true` as its
confidence score: not a JSON number, but accepted by the source's check
`isinstance(x, (int, float))`, which holds for Python `True`. -/
def boolConfidenceItem : JVal := .obj
  [("normalized_title", .str "Oat smoothie"),
   ("nutrition", .obj
     [("calories", .num 220), ("protein", .num 8),
      ("carbs", .num 34), ("fats", .num 6)]),
   ("confidence_score", .bool true)]

/-- The response wrapping `boolConfidenceItem`, otherwise well-formed. -/
def boolConfidenceResponse : JVal := .obj
  [("meal_type", .str "drink"),
   ("items", .arr [boolConfidenceItem]),
   ("total_nutrition", .obj
     [("calories", .num 220), ("protein", .num 8),
      ("carbs", .num 34), ("fats", .num 6)])]

/-- Counterexample to C1 as stated: this response's item has a
confidence score that is not a JSON number (it is the boolean `true`),
so the claimed iff requires the gateway to fail on it; the code accepts
the response and returns it, because `json.loads` maps `true` to Python
`True` and `isinstance(True, (int, float))` holds. -/
theorem gateway_accepts_boolean_confidence :
    boolConfidenceItem.getD "confidence_score" = JVal.bool true
    ∧ analyze_food_entry (some boolConfidenceResponse)
        = Except.ok boolConfidenceResponse := by
  constructor
  · rfl
  · rfl

/-- A response that is well-formed except that its meal type is the
capitalized "Breakfast". -/
def capitalizedMealResponse : JVal := .obj
  [("meal_type", .str "Breakfast"),
   ("items", .arr [validItem]),
   ("total_nutrition", .obj
     [("calories", .num 105), ("protein", .num 1),
      ("carbs", .num 27), ("fats", .num 0)])]

/-- C3: the `FoodAnalysis.validate_meal_type` validator declared in the
same source file accepts meal types case-insensitively and returns the
lowercase form ("Breakfast" becomes "breakfast"), but the validation
that `analyze_food_entry` actually runs tests `analysis["meal_type"]` by
exact membership in the five lowercase names and never lower-cases it,
so the otherwise well-formed response carrying "Breakfast" is rejected
with "Invalid meal type". -/
theorem meal_type_case_sensitivity_divergence :
    validate_meal_type "Breakfast" = Except.ok "breakfast"
    ∧ analyze_food_entry (some capitalizedMealResponse)
        = Except.error "Invalid meal type" := by
  constructor
  · rfl
  · rfl

/-- A `food_logs` row (app/models/food_log.py).  The macro and confidence
columns are `Float`; the row records their numeric value (a JSON boolean
stores as 1/0, as in Python numeric coercion).  `normalized_title`,
`meal_type` and `notes` store whatever JSON value the analysis carried,
since `create_food_log` assigns them without further checks. -/
structure FoodLog where
  user_id : Nat
  food_description : String
  normalized_title : JVal
  meal_type : JVal
  calories : Rat
  protein : Rat
  carbs : Rat
  fats : Rat
  confidence_score : Rat
  notes : JVal

/-- The persistence session: committed rows plus the rows staged by
`session.add` inside the open transaction. -/
structure DBSession where
  persisted : List FoodLog
  staged : List FoodLog

/-- Embeds `self.db.add(food_log)`: stage a row in the open transaction. -/
def DBSession.add (db : DBSession) (row : FoodLog) : DBSession :=
  { db with staged := db.staged ++ [row] }

/-- Embeds `await self.db.commit()`: atomically persist every staged row, or
fail (`commitOk = false` models a persistence error), leaving nothing
persisted from the batch. -/
def DBSession.commit (db : DBSession) (commitOk : Bool) :
    Except String DBSession :=
  if commitOk then .ok { persisted := db.persisted ++ db.staged, staged := [] }
  else .error "database commit failed"

/-- Embeds `await self.db.rollback()`: discard every staged row. -/
def DBSession.rollback (db : DBSession) : DBSession :=
  { db with staged := [] }

/-- The loop body of `FoodLogService.create_food_log` building one
`FoodLog` from one analysis item; a missing key raises `KeyError`,
embedded as `Except.error`.  `notes` is `item.get("notes") or
analysis.get("notes")`, Python `or` falling through on falsy values. -/
def buildFoodLog (user_id : Nat) (food_description : String)
    (analysis item : JVal) : Except String FoodLog :=
  match item.get? "normalized_title" with
  | none => .error "KeyError: normalized_title"
  | some title =>
    match analysis.get? "meal_type" with
    | none => .error "KeyError: meal_type"
    | some mt =>
      match item.get? "nutrition" with
      | none => .error "KeyError: nutrition"
      | some nut =>
        match nut.get? "calories", nut.get? "protein",
            nut.get? "carbs", nut.get? "fats" with
        | some cal, some prot, some carb, some fat =>
          match item.get? "confidence_score" with
          | none => .error "KeyError: confidence_score"
          | some cs =>
            .ok { user_id := user_id,
                  food_description := food_description,
                  normalized_title := title,
                  meal_type := mt,
                  calories := cal.pyNum,
                  protein := prot.pyNum,
                  carbs := carb.pyNum,
                  fats := fat.pyNum,
                  confidence_score := cs.pyNum,
                  notes :=
                    if (item.getD "notes").pyTruthy then item.getD "notes"
                    else analysis.getD "notes" }
        | _, _, _, _ => .error "KeyError: nutrition field"

/-- The `for item in analysis["items"]` construction loop of
`create_food_log`. -/
def buildFoodLogs (user_id : Nat) (food_description : String)
    (analysis : JVal) : List JVal → Except String (List FoodLog)
  | [] => .ok []
  | item :: rest =>
    match buildFoodLog user_id food_description analysis item with
    | .error e => .error e
    | .ok row =>
      match buildFoodLogs user_id food_description analysis rest with
      | .error e => .error e
      | .ok rows => .ok (row :: rows)

/-- The item list of an analysis (`analysis["items"]` as a list). -/
def jsonItems (analysis : JVal) : List JVal :=
  match analysis.get? "items" with
  | some (.arr items) => items
  | _ => []

/-- Embeds `FoodLogService.create_food_log`: run the gateway validation on
the external response, build one row per item, stage them with
`session.add`, commit once, then run the post-commit
`for food_log in food_logs: await self.db.refresh(food_log)` loop
(food_log_service.py lines 43-44).  On any failure the `except` clause
rolls back and re-raises — but a refresh failure (`refreshOk = false`
models a persistence error there, e.g. a lost connection) happens
*after* the commit has succeeded, so its rollback is a no-op and the
whole batch stays persisted while the error is still rethrown.
`refresh` itself only re-loads the already-committed rows (assigning
ids), so it never changes the persisted table.  Returns the service
result paired with the session state after the call. -/
def create_food_log (db : DBSession) (user_id : Nat)
    (food_description : String) (response : Option JVal)
    (commitOk refreshOk : Bool) : Except String (List FoodLog) × DBSession :=
  match analyze_food_entry response with
  | .error e => (.error e, db.rollback)
  | .ok analysis =>
    match analysis.get? "items" with
    | some (.arr items) =>
      match buildFoodLogs user_id food_description analysis items with
      | .error e => (.error e, db.rollback)
      | .ok rows =>
        match (rows.foldl DBSession.add db).commit commitOk with
        | .error e => (.error e, (rows.foldl DBSession.add db).rollback)
        | .ok db2 =>
          if refreshOk then (.ok rows, db2)
          else (.error "database refresh failed", db2.rollback)
    | _ => (.error "TypeError: items is not iterable", db.rollback)

/-- The `MacroNutrients` schema (app/schemas/nutrition.py) as a plain
record of its four macro fields.  Pydantic declares every field
`Field(..., ge=0)` and validates at construction; that constructor is
embedded separately as `mkMacroNutrients`, and every code path that
builds a `MacroNutrients` from unchecked values goes through it. -/
structure MacroNutrients where
  calories : Rat
  protein : Rat
  carbs : Rat
  fats : Rat
deriving DecidableEq

/-- Embeds the pydantic `MacroNutrients(...)` constructor: every field is
declared `Field(..., ge=0)`, so construction raises a `ValidationError`
whenever some value is negative, and otherwise yields the record. -/
def mkMacroNutrients (calories protein carbs fats : Rat) :
    Except String MacroNutrients :=
  if calories < 0 ∨ protein < 0 ∨ carbs < 0 ∨ fats < 0 then
    .error "ValidationError: ensure this value is greater than or equal to 0"
  else .ok ⟨calories, protein, carbs, fats⟩

/-- The `DailyProgress` schema (app/schemas/user.py). -/
structure DailyProgress where
  consumed : MacroNutrients
  targets : MacroNutrients
  remaining : MacroNutrients

/-- Embeds `NutritionCalculationService.calculate_meal_totals`: the
field-wise sums over the given rows are passed to the validating
`MacroNutrients(...)` constructor, which raises a `ValidationError`
when some sum is negative (possible, since the gateway never checks the
sign of the per-item macros). -/
def calculate_meal_totals (food_logs : List FoodLog) :
    Except String MacroNutrients :=
  mkMacroNutrients
    ((food_logs.map FoodLog.calories).sum)
    ((food_logs.map FoodLog.protein).sum)
    ((food_logs.map FoodLog.carbs).sum)
    ((food_logs.map FoodLog.fats).sum)

/-- Embeds `NutritionCalculationService.calculate_daily_progress`.  The
`MacroNutrients` constructor's ge-0 validation cannot fire here: the
`remaining` fields are clamped with `max 0`, and `consumed` and
`targets` are passed through as already-constructed instances, which
pydantic v1 accepts without re-validation. -/
def calculate_daily_progress (consumed targets : MacroNutrients) :
    DailyProgress :=
  { consumed := consumed,
    targets := targets,
    remaining :=
      { calories := max 0 (targets.calories - consumed.calories),
        protein := max 0 (targets.protein - consumed.protein),
        carbs := max 0 (targets.carbs - consumed.carbs),
        fats := max 0 (targets.fats - consumed.fats) } }

/-- Python `int(x)` on a float value: truncation toward zero. -/
def pyInt (x : Rat) : Int :=
  if 0 ≤ x then x.floor else x.ceil

/-- Embeds `NutritionCalculationService.calculate_macro_percentage`. -/
def calculate_macro_percentage (consumed target : Rat) : Int :=
  if target ≤ 0 then 0 else pyInt (consumed / target * 100)

/-- Embeds `ResponseFormattingService._calculate_percentage` (leading
underscore dropped): textually the same guard and truncation as
`calculate_macro_percentage`. -/
def formatter_calculate_percentage (consumed target : Rat) : Int :=
  if target ≤ 0 then 0 else pyInt (consumed / target * 100)

/-- The rational one half, built by its constructor so concrete runs
reduce in the kernel. -/
def oneHalf : Rat := ⟨1, 2, by norm_num, by norm_num⟩

/-- Python ".1f" formatting of a rational: one decimal digit, round half
to even (exact on the rationals used here; Python rounds the nearest
double, which agrees on dyadic-representable inputs). -/
def fmt1 (x : Rat) : String :=
  let y : Rat := x * 10
  let f : Int := y.floor
  let tenths : Int :=
    if oneHalf < y - (f : Rat) then f + 1
    else if y - (f : Rat) < oneHalf then f
    else if f % 2 = 0 then f else f + 1
  let a : Nat := tenths.natAbs
  (if tenths < 0 then "-" else "") ++ toString (a / 10) ++ "." ++ toString (a % 10)

/-- The protein suggestion emitted by `generate_recommendations`. -/
def proteinRec (g : Rat) : String :=
  "You still need " ++ fmt1 g ++ "g of protein. Consider adding lean protein sources."

/-- The carbs suggestion emitted by `generate_recommendations`. -/
def carbsRec (g : Rat) : String :=
  "You have " ++ fmt1 g ++ "g of carbs remaining. Good for energy before workouts."

/-- The fats suggestion emitted by `generate_recommendations`. -/
def fatsRec (g : Rat) : String :=
  "You can add " ++ fmt1 g ++ "g of healthy fats to your next meal."

/-- The calorie-target-reached message of `generate_recommendations`. -/
def calorieTargetReachedRec : String :=
  "You\x27ve reached your daily calorie target. Consider lighter options for remaining meals."

/-- Embeds `NutritionCalculationService.generate_recommendations`: per-macro
suggestions appended in the order protein, carbs, fats while calories
remain; otherwise the single target-reached message. -/
def generate_recommendations (progress : DailyProgress) : List String :=
  let remaining := progress.remaining
  if 0 < remaining.calories then
    (if 0 < remaining.protein then [proteinRec remaining.protein] else [])
    ++ (if 0 < remaining.carbs then [carbsRec remaining.carbs] else [])
    ++ (if 0 < remaining.fats then [fatsRec remaining.fats] else [])
  else
    [calorieTargetReachedRec]

/-- C7: `calculate_daily_progress` returns its inputs unchanged as
`consumed` and `targets`, and computes `remaining` as the per-field
clamped difference `max 0 (target - consumed)`, independently for each
of the four fields, so no remaining field is ever negative; in
particular 200 calories consumed against a 100-calorie target leaves 0
remaining. -/
theorem daily_progress_clamped (consumed targets : MacroNutrients) :
    (calculate_daily_progress consumed targets).consumed = consumed
    ∧ (calculate_daily_progress consumed targets).targets = targets
    ∧ (calculate_daily_progress consumed targets).remaining.calories
        = max 0 (targets.calories - consumed.calories)
    ∧ (calculate_daily_progress consumed targets).remaining.protein
        = max 0 (targets.protein - consumed.protein)
    ∧ (calculate_daily_progress consumed targets).remaining.carbs
        = max 0 (targets.carbs - consumed.carbs)
    ∧ (calculate_daily_progress consumed targets).remaining.fats
        = max 0 (targets.fats - consumed.fats)
    ∧ 0 ≤ (calculate_daily_progress consumed targets).remaining.calories
    ∧ 0 ≤ (calculate_daily_progress consumed targets).remaining.protein
    ∧ 0 ≤ (calculate_daily_progress consumed targets).remaining.carbs
    ∧ 0 ≤ (calculate_daily_progress consumed targets).remaining.fats
    ∧ (calculate_daily_progress ⟨200, 0, 0, 0⟩
        ⟨100, 0, 0, 0⟩).remaining.calories = 0 := by
  refine ⟨rfl, rfl, rfl, rfl, rfl, rfl, le_max_left 0 _, le_max_left 0 _,
    le_max_left 0 _, le_max_left 0 _, ?_⟩
  show max 0 ((100 : Rat) - 200) = 0
  norm_num

/-- C9: with nonnegative consumption, both percentage computations
return 0 whenever the target is ≤ 0 (never dividing), and otherwise the
floor of consumed / target * 100 (Python `int()` truncates toward zero,
which on this nonnegative quotient is the floor); the formatter's
private copy is the same function as the calculator's. -/
theorem percentage_guard_and_floor (consumed target : Rat)
    (h : 0 ≤ consumed) :
    (target ≤ 0 → calculate_macro_percentage consumed target = 0)
    ∧ (0 < target → calculate_macro_percentage consumed target
        = ⌊consumed / target * 100⌋)
    ∧ formatter_calculate_percentage consumed target
        = calculate_macro_percentage consumed target := by
  refine ⟨?_, ?_, rfl⟩
  · intro ht
    simp [calculate_macro_percentage, ht]
  · intro ht
    have hn : ¬ target ≤ 0 := not_le.mpr ht
    have hq : 0 ≤ consumed / target * 100 :=
      mul_nonneg (div_nonneg h (le_of_lt ht)) (by norm_num)
    unfold calculate_macro_percentage pyInt
    rw [if_neg hn, if_pos hq]
    rfl

/-- Witness for C9: 150 consumed against a target of 100 reports 150
percent, and a zero target reports 0 rather than dividing. -/
theorem percentage_guard_and_floor_witness :
    calculate_macro_percentage 150 100 = 150
    ∧ calculate_macro_percentage 50 0 = 0 := by
  constructor
  · have h := (percentage_guard_and_floor 150 100 (by norm_num)).2.1 (by norm_num)
    rw [h]
    norm_num
  · exact (percentage_guard_and_floor 50 0 (by norm_num)).1 (by norm_num)

/-- C8: when remaining calories are ≤ 0, `generate_recommendations`
returns exactly the single target-reached message, never per-macro
suggestions, whatever the other remainders; when remaining calories are
> 0, it returns the protein, carbs and fats suggestions in that fixed
order, each present exactly when that macro's remainder is > 0 (and the
empty list when none is). -/
theorem recommendations_branches (p : DailyProgress) :
    (p.remaining.calories ≤ 0 →
      generate_recommendations p = [calorieTargetReachedRec])
    ∧ (0 < p.remaining.calories →
      generate_recommendations p =
        (if 0 < p.remaining.protein then [proteinRec p.remaining.protein] else [])
        ++ (if 0 < p.remaining.carbs then [carbsRec p.remaining.carbs] else [])
        ++ (if 0 < p.remaining.fats then [fatsRec p.remaining.fats] else [])) := by
  constructor
  · intro h
    have hn : ¬ 0 < p.remaining.calories := not_lt.mpr h
    simp [generate_recommendations, hn]
  · intro h
    simp [generate_recommendations, h]

/-- Witness for C8 at the spec's vector: remaining calories 0 with
protein 10 and carbs 5 still positive yields exactly the single
target-reached message. -/
theorem recommendations_branches_witness :
    generate_recommendations
      ⟨⟨0, 0, 0, 0⟩, ⟨0, 0, 0, 0⟩, ⟨0, 10, 5, 0⟩⟩
      = [calorieTargetReachedRec] :=
  (recommendations_branches ⟨⟨0, 0, 0, 0⟩, ⟨0, 0, 0, 0⟩, ⟨0, 10, 5, 0⟩⟩).1
    (by norm_num)

theorem foldl_add_persisted (db : DBSession) (rows : List FoodLog) :
    (rows.foldl DBSession.add db).persisted = db.persisted := by
  induction rows generalizing db with
  | nil => rfl
  | cons row rest ih =>
    rw [List.foldl_cons]
    exact ih (db.add row)

theorem foldl_add_staged (db : DBSession) (rows : List FoodLog) :
    (rows.foldl DBSession.add db).staged = db.staged ++ rows := by
  induction rows generalizing db with
  | nil => simp
  | cons row rest ih =>
    rw [List.foldl_cons, ih]
    simp [DBSession.add]

theorem buildFoodLogs_length (u : Nat) (d : String) (a : JVal)
    (items : List JVal) (rows : List FoodLog)
    (h : buildFoodLogs u d a items = Except.ok rows) :
    rows.length = items.length := by
  induction items generalizing rows with
  | nil =>
    simp only [buildFoodLogs] at h
    cases h
    rfl
  | cons item rest ih =>
    simp only [buildFoodLogs] at h
    cases hb : buildFoodLog u d a item with
    | error e => rw [hb] at h; cases h
    | ok row =>
      rw [hb] at h
      cases hr : buildFoodLogs u d a rest with
      | error e => rw [hr] at h; cases h
      | ok rows2 =>
        rw [hr] at h
        cases h
        simp [ih rows2 hr]

theorem analyze_ok_facts (r : Option JVal) (a : JVal)
    (ha : analyze_food_entry r = Except.ok a) :
    r = some a ∧ ∃ mt items,
      a.get? "meal_type" = some mt
      ∧ a.get? "items" = some (JVal.arr items)
      ∧ checkItems items = Except.ok () := by
  have hok : exceptOk (analyze_food_entry r) = true := by rw [ha]; rfl
  rw [exceptOk_analyze r] at hok
  have hm : responseMalformed r = false := by
    cases hmm : responseMalformed r
    · rfl
    · rw [hmm] at hok
      simp at hok
  have heq := (analyze_ok_of_wellformed r hm).symm.trans ha
  injection heq with hval
  cases r with
  | none => simp [responseMalformed] at hm
  | some j =>
    have haj : a = j := by simpa using hval.symm
    subst haj
    refine ⟨rfl, ?_⟩
    simp only [responseMalformed, Bool.or_eq_false_iff] at hm
    obtain ⟨⟨⟨⟨⟨hm1, hm2⟩, hm3⟩, hib⟩, htn⟩, hmt⟩ := hm
    cases h1 : a.get? "meal_type" with
    | none => rw [h1] at hm1; simp at hm1
    | some mt =>
      cases h2 : a.get? "items" with
      | none => rw [h2] at hm2; simp at hm2
      | some itemsVal =>
        have hg2 : a.getD "items" = itemsVal := by simp [JVal.getD, h2]
        rw [hg2] at hib
        cases itemsVal with
        | arr items =>
          simp only [itemsBad, Bool.or_eq_false_iff] at hib
          obtain ⟨hemp, hall⟩ := hib
          refine ⟨mt, items, rfl, rfl, ?_⟩
          apply eq_ok_of_exceptOk
          rw [exceptOk_checkItems, hall]
          rfl
        | null => simp [itemsBad] at hib
        | bool b => simp [itemsBad] at hib
        | num q => simp [itemsBad] at hib
        | str s => simp [itemsBad] at hib
        | obj fields => simp [itemsBad] at hib

/-- The macros of one analysis item, as `create_food_log` persists them. -/
def itemMacros (item : JVal) : MacroNutrients :=
  { calories := ((item.getD "nutrition").getD "calories").pyNum,
    protein := ((item.getD "nutrition").getD "protein").pyNum,
    carbs := ((item.getD "nutrition").getD "carbs").pyNum,
    fats := ((item.getD "nutrition").getD "fats").pyNum }

/-- The confidence score of one analysis item. -/
def itemConfidence (item : JVal) : Rat :=
  (item.getD "confidence_score").pyNum

/-- The macro fields of a persisted row. -/
def logMacros (row : FoodLog) : MacroNutrients :=
  { calories := row.calories, protein := row.protein,
    carbs := row.carbs, fats := row.fats }

/-- Field-wise sum of macro records. -/
def sumMacros (ms : List MacroNutrients) : MacroNutrients :=
  { calories := (ms.map MacroNutrients.calories).sum,
    protein := (ms.map MacroNutrients.protein).sum,
    carbs := (ms.map MacroNutrients.carbs).sum,
    fats := (ms.map MacroNutrients.fats).sum }

/-- Validation of an already-computed macro record through the pydantic
constructor. -/
def validateMacros (m : MacroNutrients) : Except String MacroNutrients :=
  mkMacroNutrients m.calories m.protein m.carbs m.fats

theorem validateMacros_ok (m : MacroNutrients) (h1 : 0 ≤ m.calories)
    (h2 : 0 ≤ m.protein) (h3 : 0 ≤ m.carbs) (h4 : 0 ≤ m.fats) :
    validateMacros m = Except.ok m := by
  have hneg : ¬(m.calories < 0 ∨ m.protein < 0 ∨ m.carbs < 0 ∨ m.fats < 0) := by
    simp only [not_or, not_lt]
    exact ⟨h1, h2, h3, h4⟩
  unfold validateMacros mkMacroNutrients
  rw [if_neg hneg]

theorem meal_totals_eq_sumMacros (rows : List FoodLog) :
    calculate_meal_totals rows = validateMacros (sumMacros (rows.map logMacros)) := by
  simp only [calculate_meal_totals, validateMacros, sumMacros, List.map_map]
  rfl

theorem buildFoodLog_of_checkItem (u : Nat) (d : String) (a item mt : JVal)
    (hmt : a.get? "meal_type" = some mt)
    (hitem : checkItem item = Except.ok ()) :
    ∃ row, buildFoodLog u d a item = Except.ok row
      ∧ row.meal_type = mt
      ∧ row.food_description = d
      ∧ logMacros row = itemMacros item
      ∧ row.confidence_score = itemConfidence item := by
  have hmal : itemMalformed item = false := by
    have hx := exceptOk_checkItem item
    rw [hitem] at hx
    simp only [exceptOk, Bool.true_eq, Bool.not_eq_true'] at hx
    exact hx
  simp only [itemMalformed, Bool.or_eq_false_iff] at hmal
  obtain ⟨⟨⟨⟨ht1, ht2⟩, ht3⟩, hnf⟩, hcf⟩ := hmal
  cases h1 : item.get? "normalized_title" with
  | none => rw [h1] at ht1; simp at ht1
  | some title =>
    cases h2 : item.get? "nutrition" with
    | none => rw [h2] at ht2; simp at ht2
    | some nut =>
      cases h3 : item.get? "confidence_score" with
      | none => rw [h3] at ht3; simp at ht3
      | some cs =>
        have hgnut : item.getD "nutrition" = nut := by simp [JVal.getD, h2]
        rw [hgnut] at hnf
        simp only [nutrition_fields, List.any_cons, List.any_nil,
          Bool.or_eq_false_iff] at hnf
        obtain ⟨hfc, hfp, hfb, hff, -⟩ := hnf
        cases hc : nut.get? "calories" with
        | none => simp [nutFieldBad, hc] at hfc
        | some cal =>
          cases hp : nut.get? "protein" with
          | none => simp [nutFieldBad, hp] at hfp
          | some prot =>
            cases hb : nut.get? "carbs" with
            | none => simp [nutFieldBad, hb] at hfb
            | some carb =>
              cases hf : nut.get? "fats" with
              | none => simp [nutFieldBad, hf] at hff
              | some fat =>
                refine ⟨{ user_id := u, food_description := d,
                          normalized_title := title, meal_type := mt,
                          calories := cal.pyNum, protein := prot.pyNum,
                          carbs := carb.pyNum, fats := fat.pyNum,
                          confidence_score := cs.pyNum,
                          notes := (if (item.getD "notes").pyTruthy
                            then item.getD "notes" else a.getD "notes") },
                  ?_, rfl, rfl, ?_, ?_⟩
                · simp [buildFoodLog, h1, hmt, h2, hc, hp, hb, hf, h3]
                · simp [logMacros, itemMacros, JVal.getD, h2, hc, hp, hb, hf]
                · simp [itemConfidence, JVal.getD, h3]

theorem buildFoodLogs_of_checkItems (u : Nat) (d : String) (a mt : JVal)
    (hmt : a.get? "meal_type" = some mt) (items : List JVal)
    (hck : checkItems items = Except.ok ()) :
    ∃ rows, buildFoodLogs u d a items = Except.ok rows
      ∧ rows.length = items.length
      ∧ rows.map FoodLog.meal_type = List.replicate items.length mt
      ∧ rows.map FoodLog.food_description = List.replicate items.length d
      ∧ rows.map logMacros = items.map itemMacros
      ∧ rows.map FoodLog.confidence_score = items.map itemConfidence := by
  induction items with
  | nil => exact ⟨[], rfl, rfl, rfl, rfl, rfl, rfl⟩
  | cons item rest ih =>
    have hitem : checkItem item = Except.ok () := by
      cases hci : checkItem item with
      | error e => simp [checkItems, hci] at hck
      | ok v => rfl
    have hrest : checkItems rest = Except.ok () := by
      simpa [checkItems, hitem] using hck
    obtain ⟨row, hbrow, hmtr, hdr, hmac, hconf⟩ :=
      buildFoodLog_of_checkItem u d a item mt hmt hitem
    obtain ⟨rows, hbrows, hlen, hmts, hds, hmacs, hconfs⟩ := ih hrest
    refine ⟨row :: rows, ?_, ?_, ?_, ?_, ?_, ?_⟩
    · simp [buildFoodLogs, hbrow, hbrows]
    · simp [hlen]
    · simp [List.replicate_succ, hmtr, hmts]
    · simp [List.replicate_succ, hdr, hds]
    · simp [hmac, hmacs]
    · simp [hconf, hconfs]

/-- C2 (amended): `create_food_log` on a fresh session is all-or-nothing
for every failure up to and including the commit: if the gateway
validation fails or the commit fails, the error is rethrown and the
persisted rows are exactly what they were before the call.  Once the
commit has succeeded, the whole batch — exactly one row per analyzed
item — is persisted in that single transaction; a persistence error in
the post-commit refresh loop still rethrows, but the rollback it
triggers is a no-op and all the batch's rows remain persisted (see the
counterexample). -/
theorem create_food_log_atomic (db : DBSession) (u : Nat) (desc : String)
    (r : Option JVal) (commitOk refreshOk : Bool)
    (hfresh : db.staged = []) :
    ((exceptOk (analyze_food_entry r) = false ∨ commitOk = false) →
      exceptOk (create_food_log db u desc r commitOk refreshOk).1 = false
      ∧ ((create_food_log db u desc r commitOk refreshOk).2).persisted
          = db.persisted)
    ∧ (∀ rows,
        (create_food_log db u desc r commitOk refreshOk).1 = Except.ok rows →
      refreshOk = true
      ∧ ((create_food_log db u desc r commitOk refreshOk).2).persisted
          = db.persisted ++ rows
      ∧ ∀ analysis, analyze_food_entry r = Except.ok analysis →
          rows.length = (jsonItems analysis).length)
    ∧ (∀ analysis, analyze_food_entry r = Except.ok analysis →
        commitOk = true →
        ∃ rows, buildFoodLogs u desc analysis (jsonItems analysis)
            = Except.ok rows
          ∧ rows.length = (jsonItems analysis).length
          ∧ ((create_food_log db u desc r commitOk refreshOk).2).persisted
              = db.persisted ++ rows
          ∧ (refreshOk = false →
              exceptOk (create_food_log db u desc r commitOk refreshOk).1
                = false)) := by
  cases ha : analyze_food_entry r with
  | error e =>
    refine ⟨?_, ?_, ?_⟩
    · intro _
      exact ⟨by simp [create_food_log, ha, exceptOk],
        by simp [create_food_log, ha, DBSession.rollback]⟩
    · intro rows hrows
      simp [create_food_log, ha] at hrows
    · intro analysis ha2 _
      simp at ha2
  | ok analysis =>
    obtain ⟨hreq, mt, items, hmt, hitems, hck⟩ := analyze_ok_facts r analysis ha
    obtain ⟨rows0, hbrows, hlen0, hmts0, hds0, hmacs0, hconfs0⟩ :=
      buildFoodLogs_of_checkItems u desc analysis mt hmt items hck
    have hjs : jsonItems analysis = items := by simp [jsonItems, hitems]
    have hpers : ((rows0.foldl DBSession.add db).commit true)
        = Except.ok ⟨db.persisted ++ rows0, []⟩ := by
      simp [DBSession.commit, foldl_add_persisted, foldl_add_staged, hfresh]
    cases commitOk with
    | false =>
      refine ⟨?_, ?_, ?_⟩
      · intro _
        constructor
        · simp [create_food_log, ha, hitems, hbrows, DBSession.commit, exceptOk]
        · simp [create_food_log, ha, hitems, hbrows, DBSession.commit,
            DBSession.rollback, foldl_add_persisted]
      · intro rows hrows
        simp [create_food_log, ha, hitems, hbrows, DBSession.commit] at hrows
      · intro analysis2 ha2 hc
        cases hc
    | true =>
      cases refreshOk with
      | false =>
        refine ⟨?_, ?_, ?_⟩
        · intro hpre
          rcases hpre with hpre | hpre
          · simp [exceptOk] at hpre
          · cases hpre
        · intro rows hrows
          simp [create_food_log, ha, hitems, hbrows, hpers] at hrows
        · intro analysis2 ha2 _
          injection ha2 with hsame
          subst hsame
          refine ⟨rows0, by rw [hjs]; exact hbrows, by rw [hjs]; exact hlen0,
            ?_, ?_⟩
          · simp [create_food_log, ha, hitems, hbrows, hpers, DBSession.rollback]
          · intro _
            simp [create_food_log, ha, hitems, hbrows, hpers, exceptOk]
      | true =>
        refine ⟨?_, ?_, ?_⟩
        · intro hpre
          rcases hpre with hpre | hpre
          · simp [exceptOk] at hpre
          · cases hpre
        · intro rows hrows
          simp only [create_food_log, ha, hitems, hbrows, hpers,
            if_true, Except.ok.injEq] at hrows
          subst hrows
          refine ⟨rfl, ?_, ?_⟩
          · simp [create_food_log, ha, hitems, hbrows, hpers]
          · intro analysis2 ha2
            injection ha2 with hsame
            subst hsame
            rw [hjs]
            exact hlen0
        · intro analysis2 ha2 _
          injection ha2 with hsame
          subst hsame
          refine ⟨rows0, by rw [hjs]; exact hbrows, by rw [hjs]; exact hlen0,
            ?_, ?_⟩
          · simp [create_food_log, ha, hitems, hbrows, hpers]
          · intro hfalse
            cases hfalse

/-- Witness for C2: an absent response fails and leaves the fresh
session's persisted rows empty; a valid response with a working commit
and refresh returns its batch with the table extended by exactly it. -/
theorem create_food_log_atomic_witness :
    ((create_food_log ⟨[], []⟩ 1 "nothing" none true true).2).persisted = []
    ∧ exceptOk (create_food_log ⟨[], []⟩ 1 "nothing" none true true).1
        = false := by
  constructor
  · exact ((create_food_log_atomic ⟨[], []⟩ 1 "nothing" none true true rfl).1
      (Or.inl rfl)).2
  · exact ((create_food_log_atomic ⟨[], []⟩ 1 "nothing" none true true rfl).1
      (Or.inl rfl)).1

/-- Counterexample to C2 as stated: with the commit succeeding and the
post-commit refresh loop failing, `create_food_log` rethrows a
persistence error, yet the whole batch from the message remains
persisted — the rollback after a successful commit is a no-op. -/
theorem refresh_failure_keeps_rows :
    exceptOk (create_food_log ⟨[], []⟩ 1 "a banana"
        (some validResponse) true false).1 = false
    ∧ ((create_food_log ⟨[], []⟩ 1 "a banana"
        (some validResponse) true false).2).persisted.length = 1 := by
  constructor
  · rfl
  · rfl

/-- C5 (amended): for a food message whose validated analysis carries N
items, `create_food_log` creates exactly N rows, all sharing the
analysis's meal type and the original message text as their
description, each carrying its own item's calories, protein, carbs,
fats and confidence score; `calculate_meal_totals` over those rows
passes the field-wise sum of the N items' macros to the validating
`MacroNutrients` constructor, so it returns exactly that field-wise sum
whenever every summed field is nonnegative, and raises a
ValidationError when some summed field is negative (which validated
analyses can produce — see the counterexample). -/
theorem one_row_per_item_and_meal_totals (db : DBSession) (u : Nat)
    (desc : String) (r : Option JVal) (a : JVal)
    (ha : analyze_food_entry r = Except.ok a) :
    ∃ rows, (create_food_log db u desc r true true).1 = Except.ok rows
      ∧ rows.length = (jsonItems a).length
      ∧ rows.map FoodLog.meal_type
          = List.replicate (jsonItems a).length (a.getD "meal_type")
      ∧ rows.map FoodLog.food_description
          = List.replicate (jsonItems a).length desc
      ∧ rows.map logMacros = (jsonItems a).map itemMacros
      ∧ rows.map FoodLog.confidence_score = (jsonItems a).map itemConfidence
      ∧ calculate_meal_totals rows
          = validateMacros (sumMacros ((jsonItems a).map itemMacros))
      ∧ (0 ≤ (sumMacros ((jsonItems a).map itemMacros)).calories →
         0 ≤ (sumMacros ((jsonItems a).map itemMacros)).protein →
         0 ≤ (sumMacros ((jsonItems a).map itemMacros)).carbs →
         0 ≤ (sumMacros ((jsonItems a).map itemMacros)).fats →
          calculate_meal_totals rows
            = Except.ok (sumMacros ((jsonItems a).map itemMacros))) := by
  obtain ⟨hreq, mt, items, hmt, hitems, hck⟩ := analyze_ok_facts r a ha
  have hj : jsonItems a = items := by simp [jsonItems, hitems]
  have hgmt : a.getD "meal_type" = mt := by simp [JVal.getD, hmt]
  obtain ⟨rows, hbrows, hlen, hmts, hds, hmacs, hconfs⟩ :=
    buildFoodLogs_of_checkItems u desc a mt hmt items hck
  have htot : calculate_meal_totals rows
      = validateMacros (sumMacros (items.map itemMacros)) := by
    rw [meal_totals_eq_sumMacros rows, hmacs]
  refine ⟨rows, ?_, ?_, ?_, ?_, ?_, ?_, ?_, ?_⟩
  · simp [create_food_log, ha, hitems, hbrows, DBSession.commit]
  · rw [hj]; exact hlen
  · rw [hj, hgmt]; exact hmts
  · rw [hj]; exact hds
  · rw [hj]; exact hmacs
  · rw [hj]; exact hconfs
  · rw [hj]; exact htot
  · rw [hj]
    intro h1 h2 h3 h4
    rw [htot]
    exact validateMacros_ok _ h1 h2 h3 h4

/-- The "Banana" item of the two-item test response. -/
def bananaItem : JVal := .obj
  [("normalized_title", .str "Banana"),
   ("nutrition", .obj
     [("calories", .num 105), ("protein", .num 1),
      ("carbs", .num 27), ("fats", .num 0)]),
   ("confidence_score", .num nineTenths)]

/-- The "Coffee" item of the two-item test response. -/
def coffeeItem : JVal := .obj
  [("normalized_title", .str "Coffee"),
   ("nutrition", .obj
     [("calories", .num 2), ("protein", .num 0),
      ("carbs", .num 0), ("fats", .num 0)]),
   ("confidence_score", .num 1)]

/-- The two-item breakfast response of the end-to-end test vector. -/
def twoItemResponse : JVal := .obj
  [("meal_type", .str "breakfast"),
   ("items", .arr [bananaItem, coffeeItem]),
   ("total_nutrition", .obj
     [("calories", .num 107), ("protein", .num 1),
      ("carbs", .num 27), ("fats", .num 0)])]

/-- The rows returned by a `create_food_log` call, empty on failure. -/
def resultRows : Except String (List FoodLog) → List FoodLog
  | .ok rows => rows
  | .error _ => []

/-- The end-to-end banana-and-coffee run on a fresh session. -/
def bananaCoffeeRun : Except String (List FoodLog) × DBSession :=
  create_food_log ⟨[], []⟩ 1 "I had a banana and a coffee"
    (some twoItemResponse) true true

/-- Witness for C5 at the end-to-end vector: two items yield exactly two
rows, both tagged breakfast, and the meal totals come back as the
validated field-wise sum of the two items' macros. -/
theorem one_row_per_item_and_meal_totals_witness :
    (resultRows bananaCoffeeRun.1).length = 2
    ∧ (resultRows bananaCoffeeRun.1).map FoodLog.meal_type
        = [JVal.str "breakfast", JVal.str "breakfast"]
    ∧ (resultRows bananaCoffeeRun.1).map FoodLog.food_description
        = ["I had a banana and a coffee", "I had a banana and a coffee"]
    ∧ calculate_meal_totals (resultRows bananaCoffeeRun.1)
        = Except.ok ⟨107, 1, 27, 0⟩ := by
  obtain ⟨rows, hok, hlen, hmts, hds, hmacs, hconfs, htot, hcond⟩ :=
    one_row_per_item_and_meal_totals ⟨[], []⟩ 1
      "I had a banana and a coffee" (some twoItemResponse)
      twoItemResponse (by rfl)
  have hsum : sumMacros ((jsonItems twoItemResponse).map itemMacros)
      = ⟨107, 1, 27, 0⟩ := by
    show sumMacros [itemMacros bananaItem, itemMacros coffeeItem]
      = ⟨107, 1, 27, 0⟩
    simp only [sumMacros, List.map_cons, List.map_nil, List.sum_cons,
      List.sum_nil]
    show MacroNutrients.mk ((105 : Rat) + (2 + 0)) ((1 : Rat) + (0 + 0))
        ((27 : Rat) + (0 + 0)) ((0 : Rat) + (0 + 0)) = ⟨107, 1, 27, 0⟩
    norm_num
  have hr : resultRows bananaCoffeeRun.1 = rows := by
    have h1 : bananaCoffeeRun.1 = Except.ok rows := hok
    rw [h1]
    rfl
  refine ⟨?_, ?_, ?_, ?_⟩
  · rw [hr, hlen]
    rfl
  · rw [hr, hmts]
    rfl
  · rw [hr, hds]
    rfl
  · rw [hr, htot, hsum,
      validateMacros_ok ⟨107, 1, 27, 0⟩ (by show (0 : Rat) ≤ 107; norm_num)
        (by show (0 : Rat) ≤ 1; norm_num) (by show (0 : Rat) ≤ 27; norm_num)
        (by show (0 : Rat) ≤ 0; norm_num)]

theorem itemConfidence_bounds (item : JVal) (h : itemMalformed item = false) :
    0 ≤ itemConfidence item ∧ itemConfidence item ≤ 1 := by
  simp only [itemMalformed, Bool.or_eq_false_iff] at h
  obtain ⟨⟨⟨⟨h1, h2⟩, h3⟩, h4⟩, h5⟩ := h
  simp only [Bool.not_eq_false'] at h5
  simp only [JVal.confidenceOk, Bool.and_eq_true, decide_eq_true_eq] at h5
  exact ⟨h5.1.2, h5.2⟩

/-- C6 (amended): every `FoodLog` row persisted by `create_food_log`
carries a confidence score in [0, 1] inclusive, guaranteed by the
gateway's validation; the macro fields are only guaranteed numeric — the
gateway never checks their sign, so negative macro values can be
persisted. -/
theorem persisted_confidence_in_unit_interval (db : DBSession) (u : Nat)
    (desc : String) (r : Option JVal) (commitOk refreshOk : Bool)
    (rows : List FoodLog)
    (h : (create_food_log db u desc r commitOk refreshOk).1
      = Except.ok rows) :
    ∀ row ∈ rows, 0 ≤ row.confidence_score ∧ row.confidence_score ≤ 1 := by
  cases ha : analyze_food_entry r with
  | error e => simp [create_food_log, ha] at h
  | ok analysis =>
    cases hi : analysis.get? "items" with
    | none => simp [create_food_log, ha, hi] at h
    | some itemsVal =>
      cases itemsVal with
      | null => simp [create_food_log, ha, hi] at h
      | bool b => simp [create_food_log, ha, hi] at h
      | num q => simp [create_food_log, ha, hi] at h
      | str s => simp [create_food_log, ha, hi] at h
      | obj fields => simp [create_food_log, ha, hi] at h
      | arr items =>
        cases hb : buildFoodLogs u desc analysis items with
        | error e => simp [create_food_log, ha, hi, hb] at h
        | ok rows0 =>
          cases commitOk with
          | false =>
            simp [create_food_log, ha, hi, hb, DBSession.commit] at h
          | true =>
            cases refreshOk with
            | false =>
              simp [create_food_log, ha, hi, hb, DBSession.commit] at h
            | true =>
              have hrows : rows0 = rows := by
                simpa [create_food_log, ha, hi, hb, DBSession.commit] using h
              obtain ⟨hreq, mt, items2, hmt, hitems2, hck⟩ :=
                analyze_ok_facts r analysis ha
              rw [hi] at hitems2
              injection hitems2 with hx
              have hsame : items2 = items := by
                cases hx
                rfl
              rw [hsame] at hck
              obtain ⟨rows1, hbrows1, hlen1, hmts1, hds1, hmacs1, hconfs1⟩ :=
                buildFoodLogs_of_checkItems u desc analysis mt hmt items hck
              rw [hb] at hbrows1
              injection hbrows1 with hy
              rw [← hy] at hconfs1
              intro row hrow
              rw [← hrows] at hrow
              have hmem : row.confidence_score ∈ items.map itemConfidence := by
                rw [← hconfs1]
                exact List.mem_map_of_mem FoodLog.confidence_score hrow
              obtain ⟨item, hitem_mem, hconf_eq⟩ := List.mem_map.mp hmem
              have hany : items.any itemMalformed = false := by
                have hx2 := exceptOk_checkItems items
                rw [hck] at hx2
                simp only [exceptOk, Bool.true_eq, Bool.not_eq_true'] at hx2
                exact hx2
              have hmal : itemMalformed item = false := by
                rcases hcase : itemMalformed item with - | -
                · rfl
                · have : items.any itemMalformed = true :=
                    List.any_eq_true.mpr ⟨item, hitem_mem, hcase⟩
                  rw [this] at hany
                  cases hany
              rw [← hconf_eq]
              exact itemConfidence_bounds item hmal

/-- The single-item run on a fresh session used by the C6 witness. -/
def bananaRun : Except String (List FoodLog) × DBSession :=
  create_food_log ⟨[], []⟩ 1 "a banana" (some validResponse) true true

/-- The first row created by `bananaRun`. -/
def bananaRow : FoodLog :=
  (resultRows bananaRun.1).headD
    ⟨0, "", .null, .null, 0, 0, 0, 0, 0, .null⟩

/-- Witness for C6: the banana row persisted from the valid response has
its confidence score inside [0, 1]. -/
theorem persisted_confidence_in_unit_interval_witness :
    0 ≤ bananaRow.confidence_score ∧ bananaRow.confidence_score ≤ 1 := by
  have h := persisted_confidence_in_unit_interval ⟨[], []⟩ 1 "a banana"
    (some validResponse) true true (resultRows bananaRun.1) rfl
  exact h bananaRow (List.Mem.head _)

/-- An otherwise valid response whose item reports -5 calories; the
gateway checks nutrition values only with `isinstance`, never for
sign. -/
def negativeCaloriesItem : JVal := .obj
  [("normalized_title", .str "Mystery shake"),
   ("nutrition", .obj
     [("calories", .num (-5)), ("protein", .num 2),
      ("carbs", .num 3), ("fats", .num 1)]),
   ("confidence_score", .num 1)]

/-- The response wrapping `negativeCaloriesItem`. -/
def negativeCaloriesResponse : JVal := .obj
  [("meal_type", .str "snack"),
   ("items", .arr [negativeCaloriesItem]),
   ("total_nutrition", .obj
     [("calories", .num (-5)), ("protein", .num 2),
      ("carbs", .num 3), ("fats", .num 1)])]

/-- The mystery-shake run on a fresh session, shared by the C5 and C6
counterexamples. -/
def mysteryShakeRun : Except String (List FoodLog) × DBSession :=
  create_food_log ⟨[], []⟩ 1 "mystery shake"
    (some negativeCaloriesResponse) true true

/-- Counterexample to C5 as stated: the -5-calorie response passes the
gateway validation and `create_food_log` creates its one row, but
`calculate_meal_totals` applied to that row does not return the
field-wise sum of the item's macros — the pydantic `MacroNutrients`
constructor sees the negative calories sum and raises a
ValidationError. -/
theorem meal_totals_raises_on_negative_sum :
    analyze_food_entry (some negativeCaloriesResponse)
      = Except.ok negativeCaloriesResponse
    ∧ (resultRows mysteryShakeRun.1).length = 1
    ∧ exceptOk (calculate_meal_totals (resultRows mysteryShakeRun.1))
        = false := by
  refine ⟨rfl, rfl, ?_⟩
  show exceptOk (calculate_meal_totals
    [{ user_id := 1, food_description := "mystery shake",
       normalized_title := JVal.str "Mystery shake",
       meal_type := JVal.str "snack", calories := -5, protein := 2,
       carbs := 3, fats := 1, confidence_score := 1,
       notes := JVal.null }]) = false
  have hneg : (([(-5 : Rat)]).sum) < 0 := by
    simp only [List.sum_cons, List.sum_nil]
    norm_num
  unfold calculate_meal_totals mkMacroNutrients
  simp only [List.map_cons, List.map_nil]
  rw [if_pos (Or.inl hneg)]
  rfl

/-- Counterexample to C6 as stated: a response reporting -5 calories
passes gateway validation unchanged, and `create_food_log` persists a
row whose calories are negative. -/
theorem persisted_negative_calories :
    analyze_food_entry (some negativeCaloriesResponse)
      = Except.ok negativeCaloriesResponse
    ∧ (mysteryShakeRun.2).persisted.map
        FoodLog.calories = [(-5 : Rat)] := by
  constructor
  · rfl
  · rfl
